import Mathlib

/-!
Verification of `src/pdf_reader.py` (niranjanxprt/CV-Generator).

The script has two functions:

* `read_pdf(file_path)` opens the file with `PyPDF2.PdfReader`, iterates over
  the pages with `enumerate(pages, 1)`, prints a progress line per page, calls
  `page.extract_text()` on each page, collects the separator
  `"\n--- PAGE {n} ---\n"` followed by the page text into a list, and returns
  `"\n".join(list)`.  The whole body is wrapped in `try ... except Exception`,
  which prints the error and returns `None`.

* `main()` checks `len(sys.argv) == 2`, checks `os.path.exists`, calls
  `read_pdf`, and on a truthy result writes the content to
  `pdf_path.replace('.pdf', '_extracted.txt')`, prints the first 2000
  characters, otherwise prints a failure message.  Only the argument-count and
  file-existence branches call `sys.exit(1)`.

The embedding below models the external world (`open`/`PdfReader`/
`page.extract_text()`) as an input value: either opening the document raises,
or it yields a list of pages, each of which either yields its text or raises
when its content cannot be decoded.  Console output and file writes are
materialised as lists.
-/

namespace PdfReader

/-- The outcome of one `page.extract_text()` call: the page's text, or the
exception it raises (carried as its message). -/
abbrev PageExtract := Except String String

/-- What the file system and PyPDF2 present to `read_pdf`: either
`open(...)`/`PdfReader(...)` raises, or the document yields its list of
pages. -/
inductive PdfInput where
  | openError (e : String)
  | doc (pages : List PageExtract)

/-- The separator f-string `"\n--- PAGE {page_num} ---\n"` appended before each
page's text (line 30 of the source). -/
def pageSep (n : Nat) : String :=
  "\n--- PAGE " ++ toString n ++ " ---\n"

/-- The `text_content` list built by the page loop (lines 27-31): for each page
numbered from `k`, the separator and then the page's text; a page whose
`extract_text()` raises aborts the loop with that exception. -/
def text_content : Nat → List PageExtract → Except String (List String)
  | _, [] => Except.ok []
  | k, p :: ps =>
    match p with
    | Except.error e => Except.error e
    | Except.ok t =>
      match text_content (k + 1) ps with
      | Except.error e => Except.error e
      | Except.ok rest => Except.ok (pageSep k :: t :: rest)

/-- Python's `sep.join(list)`: the elements interleaved with the separator;
`""` on the empty list. -/
def pyJoin (s : String) : List String → String
  | [] => ""
  | [a] => a
  | a :: as => a ++ s ++ pyJoin s as

/-- The body of `read_pdf` before the `except` clause: the value returned by
line 33, or the exception escaping the body. -/
def read_pdf_raw : PdfInput → Except String String
  | PdfInput.openError e => Except.error e
  | PdfInput.doc pages =>
    match text_content 1 pages with
    | Except.error e => Except.error e
    | Except.ok l => Except.ok (pyJoin "\n" l)

/-- `read_pdf` (lines 16-37): the `try`/`except Exception` wrapper turns any
exception into the return value `None`. -/
def read_pdf (i : PdfInput) : Option String :=
  (read_pdf_raw i).toOption

/-- Observable events of a `read_pdf` run, in order: the console lines it
prints and the per-page `extract_text()` results it obtains. -/
inductive Event where
  | readingHeader (path : String)
  | printPageCount (n : Nat)
  | separatorLine
  | printProgress (k : Nat)
  | extracted (k : Nat) (t : String)
  | errorCaught (e : String)

/-- Events of the page loop (lines 27-31) starting at page number `k`:
`"Processing page {k}..."` is printed, then the page is processed; an
exception ends the loop and is caught at line 35. -/
def pageEvents : Nat → List PageExtract → List Event
  | _, [] => []
  | k, p :: ps =>
    Event.printProgress k ::
      match p with
      | Except.ok t => Event.extracted k t :: pageEvents (k + 1) ps
      | Except.error e => [Event.errorCaught e]

/-- The full event trace of `read_pdf` on a path: an open failure prints only
the caught error; otherwise the header, the page count, the dashed line, then
the page loop. -/
def read_pdf_trace (path : String) : PdfInput → List Event
  | PdfInput.openError e => [Event.errorCaught e]
  | PdfInput.doc pages =>
    Event.readingHeader path :: Event.printPageCount pages.length ::
      Event.separatorLine :: pageEvents 1 pages

/-- `"-" * 50`. -/
def dashLine : String :=
  String.mk (List.replicate 50 '-')

/-- The console line an event prints, if any (`extracted` is not a print). -/
def eventPrint : Event → Option String
  | Event.readingHeader p => some ("Reading PDF: " ++ p)
  | Event.printPageCount n => some ("Number of pages: " ++ toString n)
  | Event.separatorLine => some dashLine
  | Event.printProgress k => some ("Processing page " ++ toString k ++ "...")
  | Event.extracted _ _ => none
  | Event.errorCaught e => some ("Error reading PDF: " ++ e)

/-- The (page_number, text) pair an event records, if any. -/
def extractedPair : Event → Option (Nat × String)
  | Event.extracted k t => some (k, t)
  | _ => none

/-- The console lines printed by `read_pdf`. -/
def read_pdf_prints (path : String) (i : PdfInput) : List String :=
  (read_pdf_trace path i).filterMap eventPrint

/-- Whether `pat` occurs as a contiguous sublist of `l` (Python's `in`
on strings, for a non-empty `pat`). -/
def hasSubstr (pat : List Char) : List Char → Bool
  | [] => List.isPrefixOf pat []
  | c :: cs => List.isPrefixOf pat (c :: cs) || hasSubstr pat cs

/-- Python's `str.replace` on character lists, for a non-empty pattern:
replace each leftmost non-overlapping occurrence of `pat` by `rep`.  The fuel
argument only bounds the recursion; with `fuel ≥ l.length` it is never
exhausted. -/
def replaceAux (pat rep : List Char) : Nat → List Char → List Char
  | 0, l => l
  | _, [] => []
  | fuel + 1, c :: cs =>
    if List.isPrefixOf pat (c :: cs) then
      rep ++ replaceAux pat rep fuel (List.drop (pat.length - 1) cs)
    else
      c :: replaceAux pat rep fuel cs

/-- Python's `s.replace(pat, rep)` for a non-empty `pat`. -/
def pyReplace (s pat rep : String) : String :=
  String.mk (replaceAux pat.data rep.data s.data.length s.data)

/-- Python's `s[:n]` (slicing counts code points). -/
def pySlice (s : String) (n : Nat) : String :=
  String.mk (s.data.take n)

/-- `pdf_path.replace('.pdf', '_extracted.txt')` (line 54). -/
def output_file (p : String) : String :=
  pyReplace p ".pdf" "_extracted.txt"

/-- The world `main` runs in: `sys.argv` (element 0 is the script name),
`os.path.exists`, and what opening each path yields to `read_pdf`. -/
structure Env where
  argv : List String
  pathExists : String → Bool
  pdfInput : String → PdfInput

/-- The observable outcome of a `main` run: the process exit status, the
console lines in order, and the `(path, content)` file writes in order. -/
structure MainResult where
  exitCode : Nat
  printed : List String
  written : List (String × String)

/-- `main` (lines 39-65).  `sys.exit(1)` is modelled by returning exit code 1
at that point; falling off the end of `main` exits with status 0.  The
truthiness test `if content:` is false for `None` and for `""`. -/
def main (env : Env) : MainResult :=
  if env.argv.length ≠ 2 then
    { exitCode := 1,
      printed := ["Usage: python pdf_reader.py <pdf_file_path>"],
      written := [] }
  else
    let pdf_path := env.argv.getD 1 ""
    if env.pathExists pdf_path = false then
      { exitCode := 1,
        printed := ["File not found: " ++ pdf_path],
        written := [] }
    else
      let inp := env.pdfInput pdf_path
      let rdPrints := read_pdf_prints pdf_path inp
      match read_pdf inp with
      | some content =>
        if content = "" then
          { exitCode := 0,
            printed := rdPrints ++ ["Failed to extract text from PDF"],
            written := [] }
        else
          let out := output_file pdf_path
          { exitCode := 0,
            printed := rdPrints ++
              ["\nText extracted and saved to: " ++ out,
               "\nFirst 2000 characters:",
               dashLine,
               pySlice content 2000,
               if 2000 < content.length then "..." else ""],
            written := [(out, content)] }
      | none =>
        { exitCode := 0,
          printed := rdPrints ++ ["Failed to extract text from PDF"],
          written := [] }

/-! ## Concrete environments used by witnesses and counterexamples -/

/-- A run whose document cannot be opened: extraction yields no content. -/
def envOpenFail : Env :=
  { argv := ["pdf_reader.py", "cv.pdf"],
    pathExists := fun _ => true,
    pdfInput := fun _ => PdfInput.openError "EOF marker not found" }

/-- A run on a missing path. -/
def envMissing : Env :=
  { argv := ["pdf_reader.py", "missing.pdf"],
    pathExists := fun _ => false,
    pdfInput := fun _ => PdfInput.doc [] }

/-- A run on a zero-page document. -/
def envEmptyDoc : Env :=
  { argv := ["pdf_reader.py", "empty.pdf"],
    pathExists := fun _ => true,
    pdfInput := fun _ => PdfInput.doc [] }

/-- A successful run on the path `doc.pdf`, one page of text `"T"`. -/
def envDoc : Env :=
  { argv := ["pdf_reader.py", "doc.pdf"],
    pathExists := fun _ => true,
    pdfInput := fun _ => PdfInput.doc [Except.ok "T"] }

/-- A successful run on a path containing `.pdf` twice. -/
def envDoublePdf : Env :=
  { argv := ["pdf_reader.py", "a.pdf.pdf"],
    pathExists := fun _ => true,
    pdfInput := fun _ => PdfInput.doc [Except.ok "T"] }

/-- A successful run on a path with no `.pdf` substring at all. -/
def envNoPdfExt : Env :=
  { argv := ["pdf_reader.py", "resume"],
    pathExists := fun _ => true,
    pdfInput := fun _ => PdfInput.doc [Except.ok "T"] }

/-! ## Helper lemmas -/

theorem text_content_ok (texts : List String) (k : Nat) :
    text_content k (texts.map Except.ok) =
      Except.ok ((List.enumFrom k texts).flatMap fun p => [pageSep p.1, p.2]) := by
  induction texts generalizing k with
  | nil => rfl
  | cons t ts ih => simp [text_content, List.enumFrom_cons, ih]

theorem text_content_err (l1 : List PageExtract) (e : String) (l2 : List PageExtract)
    (k : Nat) :
    ∃ e2, text_content k (l1 ++ Except.error e :: l2) = Except.error e2 := by
  induction l1 generalizing k with
  | nil => exact ⟨e, rfl⟩
  | cons p ps ih =>
    cases p with
    | error e0 => exact ⟨e0, rfl⟩
    | ok t =>
      obtain ⟨e2, h2⟩ := ih (k + 1)
      exact ⟨e2, by simp [text_content, h2]⟩

theorem pageEvents_ok (texts : List String) (k : Nat) :
    pageEvents k (texts.map Except.ok) =
      (List.enumFrom k texts).flatMap
        fun p => [Event.printProgress p.1, Event.extracted p.1 p.2] := by
  induction texts generalizing k with
  | nil => rfl
  | cons t ts ih => simp [pageEvents, List.enumFrom_cons, ih]

theorem pageEvents_err (texts : List String) (e : String) (l2 : List PageExtract)
    (k : Nat) :
    pageEvents k (texts.map Except.ok ++ Except.error e :: l2) =
      ((List.enumFrom k texts).flatMap
        fun p => [Event.printProgress p.1, Event.extracted p.1 p.2]) ++
      [Event.printProgress (k + texts.length), Event.errorCaught e] := by
  induction texts generalizing k with
  | nil => simp [pageEvents]
  | cons t ts ih =>
    have harith : k + (ts.length + 1) = (k + 1) + ts.length := by omega
    simp only [List.map_cons, List.cons_append, pageEvents, List.append_eq,
      ih (k + 1), List.enumFrom_cons, List.flatMap_cons, List.cons_append,
      List.append_assoc, List.nil_append, List.length_cons, harith]

theorem pyJoin_cons_cons (s a b : String) (l : List String) :
    pyJoin s (a :: b :: l) = a ++ s ++ pyJoin s (b :: l) := rfl

theorem pyJoin_flatMap_pair {α : Type} (s : String) (f g : α → String) (l : List α) :
    pyJoin s (l.flatMap fun p => [f p, g p]) =
      pyJoin s (l.map fun p => f p ++ s ++ g p) := by
  induction l with
  | nil => rfl
  | cons p ps ih =>
    cases ps with
    | nil => rfl
    | cons q qs =>
      have hq : (q :: qs).flatMap (fun p => [f p, g p]) =
          f q :: g q :: qs.flatMap (fun p => [f p, g p]) := by
        simp [List.flatMap_cons]
      have hl : ((p :: q :: qs).flatMap fun p => [f p, g p]) =
          f p :: g p :: (q :: qs).flatMap (fun p => [f p, g p]) := by
        simp [List.flatMap_cons]
      rw [hl, hq, pyJoin_cons_cons, pyJoin_cons_cons, ← hq, ih]
      simp only [List.map_cons]
      rw [pyJoin_cons_cons]
      simp only [String.append_assoc]

theorem replaceAux_of_not_hasSubstr (pat rep : List Char) (l : List Char)
    (h : hasSubstr pat l = false) (fuel : Nat) :
    replaceAux pat rep fuel l = l := by
  induction fuel generalizing l with
  | zero => cases l <;> rfl
  | succ n ih =>
    cases l with
    | nil => rfl
    | cons c cs =>
      rw [hasSubstr, Bool.or_eq_false_iff] at h
      simp [replaceAux, h.1, ih cs h.2]

theorem output_file_of_no_pdf (p : String)
    (h : hasSubstr ".pdf".data p.data = false) : output_file p = p := by
  unfold output_file pyReplace
  rw [replaceAux_of_not_hasSubstr _ _ _ h]

theorem filterMap_pairEvents (l : List (Nat × String)) :
    (l.flatMap fun p => [Event.printProgress p.1, Event.extracted p.1 p.2]).filterMap
      extractedPair = l := by
  induction l with
  | nil => rfl
  | cons p ps ih =>
    simp [List.flatMap_cons, List.filterMap_append, List.filterMap_cons,
      extractedPair, ih]

/-! ## Claims -/

/-- C1, counterexample: a 3-page document whose middle page raises while
decoding does not yield the other two pages' text with an empty string for
page 2; `read_pdf` aborts the whole document and returns `None`. -/
theorem claim_C1_counterexample :
    read_pdf (PdfInput.doc
      [Except.ok "page one text", Except.error "unsupported filter",
       Except.ok "page three text"]) = none := rfl

/-- C1 (amended): a failure to decode a single page's content aborts
extraction of the whole document.  The exception escapes the page loop, is
caught only by the document-level handler, and `read_pdf` returns `None`;
pages after the failing one are never visited (the trace stops at the failing
page's progress line followed by the caught error). -/
theorem claim_C1 :
    (∀ (l1 : List PageExtract) (e : String) (l2 : List PageExtract),
        read_pdf (PdfInput.doc (l1 ++ Except.error e :: l2)) = none) ∧
    (∀ (path : String) (texts : List String) (e : String) (l2 : List PageExtract),
        read_pdf_trace path
            (PdfInput.doc (texts.map Except.ok ++ Except.error e :: l2)) =
          Event.readingHeader path ::
            Event.printPageCount (texts.length + 1 + l2.length) ::
              Event.separatorLine ::
                (((List.enumFrom 1 texts).flatMap
                    fun p => [Event.printProgress p.1, Event.extracted p.1 p.2]) ++
                  [Event.printProgress (texts.length + 1), Event.errorCaught e])) := by
  constructor
  · intro l1 e l2
    obtain ⟨e2, h2⟩ := text_content_err l1 e l2 1
    simp [read_pdf, read_pdf_raw, h2, Except.toOption]
  · intro path texts e l2
    have h1 : texts.length + (l2.length + 1) = texts.length + 1 + l2.length := by
      omega
    simp only [read_pdf_trace, pageEvents_err, List.length_append,
      List.length_map, List.length_cons, h1, Nat.add_comm 1 texts.length]

/-- C2, counterexample: a run whose extraction yields no content (`read_pdf`
returns `None`) prints the failure message but exits with status 0, not a
non-zero status. -/
theorem claim_C2_counterexample :
    read_pdf (envOpenFail.pdfInput "cv.pdf") = none ∧
    (main envOpenFail).exitCode = 0 ∧
    (main envOpenFail).printed =
      ["Error reading PDF: EOF marker not found",
       "Failed to extract text from PDF"] ∧
    (main envOpenFail).written = [] := ⟨rfl, rfl, rfl, rfl⟩

/-- C2 (amended): for every run in which extraction yields no content
(`read_pdf` returns `None` or the empty string), the program prints
`"Failed to extract text from PDF"`, writes no output file, and exits with
status 0 — the no-content branch of `main` has no `sys.exit(1)`. -/
theorem claim_C2 (env : Env) (prog p : String)
    (hargv : env.argv = [prog, p]) (hex : env.pathExists p = true)
    (hc : read_pdf (env.pdfInput p) = none ∨ read_pdf (env.pdfInput p) = some "") :
    (main env).exitCode = 0 ∧ (main env).written = [] ∧
    "Failed to extract text from PDF" ∈ (main env).printed := by
  unfold main
  rw [hargv]
  rcases hc with h | h <;> simp [hex, h]

/-- C2 witness: the amended claim at the concrete run `envOpenFail`. -/
theorem claim_C2_witness :
    (main envOpenFail).exitCode = 0 ∧ (main envOpenFail).written = [] ∧
    "Failed to extract text from PDF" ∈ (main envOpenFail).printed :=
  claim_C2 envOpenFail "pdf_reader.py" "cv.pdf" rfl rfl (Or.inl rfl)

/-- C3, counterexample: on the input path `a.pdf.pdf`, `main` writes to
`a_extracted.txt_extracted.txt` — every occurrence of `.pdf` is replaced —
and not to `a.pdf_extracted.txt`, the path obtained by replacing only the
`.pdf` extension. -/
theorem claim_C3_counterexample :
    (main envDoublePdf).written =
      [("a_extracted.txt_extracted.txt", "\n--- PAGE 1 ---\n\nT")] ∧
    ("a_extracted.txt_extracted.txt" : String) ≠ "a.pdf_extracted.txt" :=
  ⟨rfl, by decide⟩

/-- C3 (amended): on every successful extraction with non-empty content, the
concatenated text is written to the path obtained from the input path by
replacing every occurrence of the substring `.pdf` with `_extracted.txt`
(which equals `<stem>_extracted.txt` when `.pdf` occurs exactly once, as the
final extension). -/
theorem claim_C3 (env : Env) (prog p c : String)
    (hargv : env.argv = [prog, p]) (hex : env.pathExists p = true)
    (hc : read_pdf (env.pdfInput p) = some c) (hne : c ≠ "") :
    (main env).written = [(pyReplace p ".pdf" "_extracted.txt", c)] := by
  unfold main
  rw [hargv]
  simp [hex, hc, hne, output_file]

/-- C3 witness: the amended claim at the concrete run `envDoc`, where the
written path computes to `doc_extracted.txt`. -/
theorem claim_C3_witness :
    (main envDoc).written =
      [(pyReplace "doc.pdf" ".pdf" "_extracted.txt", "\n--- PAGE 1 ---\n\nT")] :=
  claim_C3 envDoc "pdf_reader.py" "doc.pdf" "\n--- PAGE 1 ---\n\nT" rfl rfl rfl
    (by decide)

/-- C4, counterexample: for a one-page document with text `"A"`, the result is
not the separator immediately followed by the page text; `"\n".join` inserts
an extra newline between them. -/
theorem claim_C4_counterexample :
    read_pdf (PdfInput.doc [Except.ok "A"]) = some "\n--- PAGE 1 ---\n\nA" ∧
    ("\n--- PAGE 1 ---\n\nA" : String) ≠ pageSep 1 ++ "A" := ⟨rfl, by decide⟩

/-- C4 (amended): for a document whose pages all decode, `read_pdf` returns
the page blocks joined by `"\n"`, where page `n`'s block is the separator
`"\n--- PAGE n ---\n"`, then one extra `"\n"` (from `"\n".join` falling
between the separator element and the text element), then the page's text. -/
theorem claim_C4 (texts : List String) :
    read_pdf (PdfInput.doc (texts.map Except.ok)) =
      some (pyJoin "\n" ((List.enumFrom 1 texts).map
        fun p => pageSep p.1 ++ "\n" ++ p.2)) := by
  have h := pyJoin_flatMap_pair "\n" (fun p : Nat × String => pageSep p.1)
    (fun p : Nat × String => p.2) (List.enumFrom 1 texts)
  simp [read_pdf, read_pdf_raw, text_content_ok, Except.toOption] at h ⊢
  exact h

/-- C5: when the single path argument does not name an existing file, `main`
prints exactly the one line `"File not found: <path>"` (naming the file),
exits with status 1, and neither extracts nor writes anything. -/
theorem claim_C5 (env : Env) (prog p : String)
    (hargv : env.argv = [prog, p]) (hex : env.pathExists p = false) :
    main env =
      { exitCode := 1, printed := ["File not found: " ++ p], written := [] } := by
  unfold main
  rw [hargv]
  simp [hex]

/-- C5 witness: the claim at the concrete run `envMissing`. -/
theorem claim_C5_witness :
    main envMissing =
      { exitCode := 1, printed := ["File not found: missing.pdf"],
        written := [] } :=
  claim_C5 envMissing "pdf_reader.py" "missing.pdf" rfl rfl

/-- C6: on every successful extraction with non-empty content, `main` prints
the line `pySlice content 2000` — exactly the first 2000 characters of the
concatenation, and the whole text when it has at most 2000 characters. -/
theorem claim_C6 (env : Env) (prog p c : String)
    (hargv : env.argv = [prog, p]) (hex : env.pathExists p = true)
    (hc : read_pdf (env.pdfInput p) = some c) (hne : c ≠ "") :
    (main env).printed =
      read_pdf_prints p (env.pdfInput p) ++
        ["\nText extracted and saved to: " ++ output_file p,
         "\nFirst 2000 characters:",
         dashLine,
         pySlice c 2000,
         if 2000 < c.length then "..." else ""] ∧
    (pySlice c 2000).data = c.data.take 2000 ∧
    (c.length ≤ 2000 → pySlice c 2000 = c) := by
  refine ⟨?_, rfl, ?_⟩
  · unfold main
    rw [hargv]
    simp [hex, hc, hne]
  · intro hle
    unfold pySlice
    rw [List.take_of_length_le hle]

/-- C6 witness: the claim at the concrete run `envDoc`, whose 19-character
content is printed whole. -/
theorem claim_C6_witness :
    (main envDoc).printed =
      read_pdf_prints "doc.pdf" (envDoc.pdfInput "doc.pdf") ++
        ["\nText extracted and saved to: " ++ output_file "doc.pdf",
         "\nFirst 2000 characters:",
         dashLine,
         pySlice "\n--- PAGE 1 ---\n\nT" 2000,
         if 2000 < ("\n--- PAGE 1 ---\n\nT" : String).length then "..." else ""] ∧
    (pySlice "\n--- PAGE 1 ---\n\nT" 2000).data =
      ("\n--- PAGE 1 ---\n\nT" : String).data.take 2000 ∧
    (("\n--- PAGE 1 ---\n\nT" : String).length ≤ 2000 →
      pySlice "\n--- PAGE 1 ---\n\nT" 2000 = "\n--- PAGE 1 ---\n\nT") :=
  claim_C6 envDoc "pdf_reader.py" "doc.pdf" "\n--- PAGE 1 ---\n\nT" rfl rfl rfl
    (by decide)

/-- C7, counterexample: on a 1-page document whose page fails to decode, the
run produces no (page_number, text) pair at all, not the sequence with page
numbers `1..1` the claim requires for every document. -/
theorem claim_C7_counterexample :
    ((read_pdf_trace "cv.pdf" (PdfInput.doc [Except.error "bad"])).filterMap
        extractedPair).map Prod.fst = [] ∧
    ([] : List Nat) ≠ List.range' 1 1 := ⟨rfl, by decide⟩

/-- C7 (amended): for every document all of whose pages decode successfully,
the trace is the page count printed once, followed for each page — in
document order, numbered 1..n — by its progress line immediately before its
processing; the (page_number, text) pairs are exactly the pages numbered from
1, whose numbers are `1, 2, ..., n` in increasing order. -/
theorem claim_C7 (path : String) (texts : List String) :
    read_pdf_trace path (PdfInput.doc (texts.map Except.ok)) =
      Event.readingHeader path :: Event.printPageCount texts.length ::
        Event.separatorLine ::
          ((List.enumFrom 1 texts).flatMap
            fun p => [Event.printProgress p.1, Event.extracted p.1 p.2]) ∧
    (read_pdf_trace path (PdfInput.doc (texts.map Except.ok))).filterMap
        extractedPair = List.enumFrom 1 texts ∧
    (List.enumFrom 1 texts).map Prod.fst = List.range' 1 texts.length := by
  have htr : read_pdf_trace path (PdfInput.doc (texts.map Except.ok)) =
      Event.readingHeader path :: Event.printPageCount texts.length ::
        Event.separatorLine ::
          ((List.enumFrom 1 texts).flatMap
            fun p => [Event.printProgress p.1, Event.extracted p.1 p.2]) := by
    simp [read_pdf_trace, pageEvents_ok, List.length_map]
  refine ⟨htr, ?_, List.enumFrom_map_fst 1 texts⟩
  rw [htr]
  simp [List.filterMap_cons, extractedPair, filterMap_pairEvents]

/-- C8: `read_pdf` is `Option`-valued and total over its error channel: its
result is always `None` or a string, and whenever the body raises (the raw
run is an `error`), the `except Exception` handler yields `None`. -/
theorem claim_C8 (i : PdfInput) :
    (read_pdf i = none ∨ ∃ s, read_pdf i = some s) ∧
    (∀ e, read_pdf_raw i = Except.error e → read_pdf i = none) := by
  constructor
  · cases h : read_pdf i with
    | none => exact Or.inl rfl
    | some s => exact Or.inr ⟨s, rfl⟩
  · intro e he
    simp [read_pdf, he, Except.toOption]

/-- C8 witness: the claim at a concrete failing input. -/
theorem claim_C8_witness :
    read_pdf (PdfInput.openError "bad xref") = none :=
  (claim_C8 (PdfInput.openError "bad xref")).2 "bad xref" rfl

/-- C9: the output path is computed by replacing every occurrence of `.pdf`
in the input path, so for an input path containing no `.pdf` substring the
computed output path is the input path itself and `main` writes the extracted
text over the input file. -/
theorem claim_C9 (env : Env) (prog p c : String)
    (hargv : env.argv = [prog, p]) (hex : env.pathExists p = true)
    (hc : read_pdf (env.pdfInput p) = some c) (hne : c ≠ "")
    (hno : hasSubstr ".pdf".data p.data = false) :
    output_file p = p ∧ (main env).written = [(p, c)] := by
  have ho := output_file_of_no_pdf p hno
  refine ⟨ho, ?_⟩
  unfold main
  rw [hargv]
  simp [hex, hc, hne, ho]

/-- C9 witness: the claim at the concrete run `envNoPdfExt`, whose input path
`resume` contains no `.pdf`; the write targets `resume` itself. -/
theorem claim_C9_witness :
    output_file "resume" = "resume" ∧
    (main envNoPdfExt).written = [("resume", "\n--- PAGE 1 ---\n\nT")] :=
  claim_C9 envNoPdfExt "pdf_reader.py" "resume" "\n--- PAGE 1 ---\n\nT" rfl rfl
    rfl (by decide) (by decide)

/-- C10: on a zero-page document, `read_pdf` returns the empty string
(`"\n".join` of the empty list), which `main` treats as a failed extraction:
no output file is written, the failure message is printed, and the process
exits with status 0. -/
theorem claim_C10 (env : Env) (prog p : String)
    (hargv : env.argv = [prog, p]) (hex : env.pathExists p = true)
    (hdoc : env.pdfInput p = PdfInput.doc []) :
    read_pdf (PdfInput.doc []) = some "" ∧
    main env =
      { exitCode := 0,
        printed := ["Reading PDF: " ++ p, "Number of pages: 0", dashLine,
                    "Failed to extract text from PDF"],
        written := [] } := by
  have hr : read_pdf (PdfInput.doc []) = some "" := rfl
  have hpr : read_pdf_prints p (PdfInput.doc []) =
      ["Reading PDF: " ++ p, "Number of pages: 0", dashLine] := rfl
  refine ⟨hr, ?_⟩
  unfold main
  rw [hargv]
  simp [hex, hdoc, hr, hpr]

/-- C10 witness: the claim at the concrete run `envEmptyDoc`. -/
theorem claim_C10_witness :
    read_pdf (PdfInput.doc []) = some "" ∧
    main envEmptyDoc =
      { exitCode := 0,
        printed := ["Reading PDF: empty.pdf", "Number of pages: 0", dashLine,
                    "Failed to extract text from PDF"],
        written := [] } :=
  claim_C10 envEmptyDoc "pdf_reader.py" "empty.pdf" rfl rfl rfl

end PdfReader
